import Mathlib

/-!
Verification of the KolamAI browser front-end (`src/KolamAI/static/main.js`).

The file is UI glue around a single animation loop.  We embed the pieces the
specification talks about: the Pattern Record data model, the animation state
machine (`animate`, `togglePlayPause`, `resetAnimation`, `initializeCanvas`),
the upload response handling of `handleFileUpload`, and the two export actions
(`exportSVG`, `saveEquation`).  Browser side effects (canvas drawing, alerts,
downloads, fetches, frame scheduling) are reified as explicit effect values
emitted by the embedded functions, in the order the JS code performs them.

Numbers that the code divides (timestamps, speed) are modelled as rationals;
coordinates, which the code only ever copies into drawing calls, are modelled
as integer pairs.
-/

namespace KolamAI

/-- A 2-D point `[x, y]` in canvas space (main.js stores points as
two-element arrays; no arithmetic is ever performed on them). -/
abbrev Point := Int × Int

/-- One path: an ordered sequence of points (one continuous stroke). -/
abbrev Path := List Point

/-- `kolamData.grid` from the analysis response. -/
structure Grid where
  type : String
  dimensions : Int × Int
  dots : List Point
  deriving Repr, DecidableEq

/-- `kolamData.equations` from the analysis response.  `domain` is the pair
`[min, max]`; `r_squared` the fit quality. -/
structure Equations where
  x_function : String
  y_function : String
  domain : ℚ × ℚ
  r_squared : ℚ
  deriving Repr, DecidableEq

/-- The Pattern Record: the payload stored in the global `kolamData`
(main.js:2, assigned at main.js:76). -/
structure PatternRecord where
  id : String
  type : String
  symmetry : String
  complexity : String
  grid : Grid
  equations : Equations
  paths : List Path
  deriving Repr, DecidableEq

/-- The global `animationState` object (main.js:3-9).  `animationId` is the
handle of the pending `requestAnimationFrame` callback, `none` when no frame
was ever scheduled. -/
structure AnimationState where
  isPlaying : Bool
  currentPathIndex : Nat
  currentPointIndex : Nat
  speed : ℚ
  animationId : Option Nat
  deriving Repr, DecidableEq

/-- The initial value of `animationState` (main.js:3-9). -/
def initialAnimationState : AnimationState :=
  { isPlaying := false
    currentPathIndex := 0
    currentPointIndex := 0
    speed := 1
    animationId := none }

/-- Canvas drawing commands, in the order the code issues them. -/
inductive DrawCmd where
  /-- `ctx.fillRect(0, 0, w, h)` with the given `fillStyle` (main.js:124-125). -/
  | fillBackground (color : String)
  /-- `ctx.arc(center, radius)` followed by `ctx.fill()` with the given
  `fillStyle` (grid dots, main.js:143-148; highlight disk, main.js:253-257). -/
  | arcFill (center : Point) (radius : ℚ) (color : String)
  /-- `ctx.moveTo(a); ctx.lineTo(b); ctx.stroke()` with the given stroke
  style, line width, and shadow (glow) colour (main.js:238-250; caps and
  joins are both `'round'`). -/
  | strokeLine (a b : Point) (strokeStyle : String) (lineWidth : ℚ)
      (shadowColor : String)
  deriving Repr, DecidableEq

/-- `frameDelay` — base delay in time-units between accepted frames
(main.js:207). -/
def frameDelay : ℚ := 50

/-- The throttle test `timestamp - lastFrameTime < frameDelay / speed` of
`animate` (main.js:213-215).  JS division `50 / 0` yields `+∞`, making the
comparison true for every finite timestamp, so the zero-speed case is
modelled explicitly; for every non-zero speed rational division agrees with
the JS computation. -/
def throttleCheck (timestamp lastFrameTime speed : ℚ) : Bool :=
  if speed = 0 then true
  else decide (timestamp - lastFrameTime < frameDelay / speed)

/-- Everything one call of `animate` produces: the new `animationState`, the
new `lastFrameTime` baseline, the drawing commands issued, the text written
to the play icon (if any), and whether `requestAnimationFrame` was called. -/
structure FrameResult where
  state : AnimationState
  lastFrameTime : ℚ
  draws : List DrawCmd
  playIcon : Option String
  scheduled : Bool
  deriving Repr, DecidableEq

/-- One call of `animate(timestamp)` (main.js:209-274).  `paths` is
`kolamData.paths`; `newId` is the handle `requestAnimationFrame` would
return if called; `lastFrameTime` is the module-level baseline (main.js:206).

Faithful to the source:
* not playing → return immediately (main.js:210);
* throttled → store the new handle and reschedule, touching nothing else
  (main.js:215-218);
* otherwise the baseline becomes `timestamp` (main.js:220); a missing
  current path (`!currentPath`) completes the animation (main.js:225-230);
* a path with a next point draws the segment and the highlight disk and
  advances `currentPointIndex` (main.js:233-259) — note that for a path of
  length 0 the JS comparison is against `-1` and ours against `0 - 1 = 0`
  truncated, and both are false for every natural `currentPointIndex`;
* otherwise the cursor moves to the next path, completing when that
  exhausts `paths` (main.js:260-270);
* if still playing, the next frame is scheduled (main.js:273). -/
def animate (paths : List Path) (newId : Nat) (timestamp : ℚ)
    (lastFrameTime : ℚ) (st : AnimationState) : FrameResult :=
  if !st.isPlaying then
    { state := st, lastFrameTime := lastFrameTime, draws := [],
      playIcon := none, scheduled := false }
  else if throttleCheck timestamp lastFrameTime st.speed then
    { state := { st with animationId := some newId },
      lastFrameTime := lastFrameTime, draws := [],
      playIcon := none, scheduled := true }
  else
    match paths.get? st.currentPathIndex with
    | none =>
        { state := { st with isPlaying := false },
          lastFrameTime := timestamp, draws := [],
          playIcon := some "▶", scheduled := false }
    | some currentPath =>
        if st.currentPointIndex < currentPath.length - 1 then
          let start := currentPath.getD st.currentPointIndex (0, 0)
          let stop := currentPath.getD (st.currentPointIndex + 1) (0, 0)
          { state := { st with
              currentPointIndex := st.currentPointIndex + 1,
              animationId := some newId },
            lastFrameTime := timestamp,
            draws := [DrawCmd.strokeLine start stop "#fff" 3 "#FFA500",
                      DrawCmd.arcFill stop 6 "#FF6347"],
            playIcon := none, scheduled := true }
        else
          if st.currentPathIndex + 1 ≥ paths.length then
            { state := { st with
                currentPathIndex := st.currentPathIndex + 1,
                currentPointIndex := 0,
                isPlaying := false },
              lastFrameTime := timestamp, draws := [],
              playIcon := some "▶", scheduled := false }
          else
            { state := { st with
                currentPathIndex := st.currentPathIndex + 1,
                currentPointIndex := 0,
                animationId := some newId },
              lastFrameTime := timestamp, draws := [],
              playIcon := none, scheduled := true }

/-- Result of one click of the play/pause control. `cancelled` is the frame
handle passed to `cancelAnimationFrame`, when any. -/
structure ToggleResult where
  state : AnimationState
  lastFrameTime : ℚ
  draws : List DrawCmd
  playIcon : String
  scheduled : Bool
  cancelled : Option Nat
  deriving Repr, DecidableEq

/-- `togglePlayPause` (main.js:174-187): flip `isPlaying`; if now playing,
set the icon to `⏸` and call `animate()` — with JS default argument
`timestamp = 0` — which may in turn overwrite the icon; if now paused, set
the icon to `▶` and cancel the pending frame when a handle is present
(`animationId` is never reassigned to null, and `requestAnimationFrame`
handles are non-zero, so JS truthiness coincides with presence). -/
def togglePlayPause (paths : List Path) (newId : Nat) (lastFrameTime : ℚ)
    (st : AnimationState) : ToggleResult :=
  let st1 := { st with isPlaying := !st.isPlaying }
  if st1.isPlaying then
    let fr := animate paths newId 0 lastFrameTime st1
    { state := fr.state, lastFrameTime := fr.lastFrameTime,
      draws := fr.draws, playIcon := fr.playIcon.getD "⏸",
      scheduled := fr.scheduled, cancelled := none }
  else
    { state := st1, lastFrameTime := lastFrameTime, draws := [],
      playIcon := "▶", scheduled := false, cancelled := st.animationId }

/-- `drawGridDots` (main.js:140-149): one filled disk of radius 4 in
`#FF6347` per grid dot; nothing when no record is live. -/
def drawGridDots (record : Option PatternRecord) : List DrawCmd :=
  match record with
  | none => []
  | some r => r.grid.dots.map (fun d => DrawCmd.arcFill d 4 "#FF6347")

/-- `initializeCanvas` (main.js:120-137), assuming the canvas context
exists: fill the background black, draw the grid dots, zero both cursors,
set playback to paused, and set the play icon to `▶`.  Returns the new
animation state, the drawing commands, and the icon text written. -/
def initializeCanvas (record : Option PatternRecord) (st : AnimationState) :
    AnimationState × List DrawCmd × String :=
  ({ st with currentPathIndex := 0, currentPointIndex := 0,
             isPlaying := false },
   DrawCmd.fillBackground "#000" :: drawGridDots record,
   "▶")

/-- Result of one click of the reset control. -/
structure ResetResult where
  state : AnimationState
  draws : List DrawCmd
  playIcon : String
  cancelled : Option Nat
  deriving Repr, DecidableEq

/-- `resetAnimation` (main.js:190-203): first cancel the pending frame when
a handle is present, then set `isPlaying := false` and zero both cursors,
set the icon to `▶`, and redraw via `initializeCanvas` (which re-zeroes the
cursors and re-writes the icon; the final icon is `▶` either way). -/
def resetAnimation (record : Option PatternRecord) (st : AnimationState) :
    ResetResult :=
  let cancelled := st.animationId
  let st1 := { st with isPlaying := false, currentPathIndex := 0,
                       currentPointIndex := 0 }
  let res := initializeCanvas record st1
  { state := res.1, draws := res.2.1, playIcon := res.2.2,
    cancelled := cancelled }

/-- Browser side effects of the upload and export actions, in program
order. -/
inductive Effect where
  /-- the `POST /analyze` request of `handleFileUpload` (main.js:68-71) -/
  | fetchAnalyze
  /-- the `POST /export-svg` request with body
  `{paths: kolamData.paths, grid_dots: kolamData.grid.dots}`
  (main.js:281-290) -/
  | fetchExportSVG (paths : List Path) (grid_dots : List Point)
  /-- unhide the upload status banner (main.js:62) -/
  | showStatus
  /-- hide the upload status banner (main.js:80, 85) -/
  | hideStatus
  /-- a blocking `alert(msg)` -/
  | alert (msg : String)
  /-- a triggered browser download of `content` under `filename`
  (main.js:296-304, 343-351) -/
  | download (filename : String) (content : String)
  /-- the call to `displayResults()` on upload success (main.js:77) -/
  | displayResults
  deriving Repr, DecidableEq

/-- Is this effect a network request? -/
def Effect.isFetch : Effect → Bool
  | .fetchAnalyze => true
  | .fetchExportSVG _ _ => true
  | _ => false

/-- Is this effect a triggered browser download? -/
def Effect.isDownload : Effect → Bool
  | .download _ _ => true
  | _ => false

/-- The JSON body of the `/analyze` response: `{success, data?, error?}`
(spec interface), or a transport/parse failure caught by the
`try`/`catch`. -/
inductive AnalyzeOutcome where
  | response (success : Bool) (data : Option PatternRecord) (error : String)
  | transportError
  deriving Repr, DecidableEq

/-- `handleFileUpload` (main.js:60-87), given the pattern record currently
live and the outcome of the single fetch it issues: show the status banner,
issue the request, then
* on `success` assign `kolamData = result.data` and call `displayResults`;
* on application-level failure alert `'Error analyzing image: ' + error`
  and hide the banner, leaving `kolamData` untouched;
* on transport failure alert the fixed connectivity message and hide the
  banner, leaving `kolamData` untouched.
Returns the new value of `kolamData` and the effects in order. -/
def handleFileUpload (kolam : Option PatternRecord)
    (outcome : AnalyzeOutcome) : Option PatternRecord × List Effect :=
  (match outcome with
   | .response true data _ => data
   | .response false _ _ => kolam
   | .transportError => kolam,
   [Effect.showStatus, Effect.fetchAnalyze] ++
   match outcome with
   | .response true _ _ => [Effect.displayResults]
   | .response false _ err =>
       [Effect.alert ("Error analyzing image: " ++ err), Effect.hideStatus]
   | .transportError =>
       [Effect.alert "Failed to connect to server. Make sure the Flask backend is running on port 5000.",
        Effect.hideStatus])

/-- The JSON body of the `/export-svg` response: `{success, svg?, error?}`,
or a transport/parse failure caught by the `try`/`catch`. -/
inductive SvgOutcome where
  | response (success : Bool) (svg : String) (error : String)
  | transportError
  deriving Repr, DecidableEq

/-- `exportSVG` (main.js:277-314): a no-op guard when no record is live;
otherwise a single fetch whose body carries the record's `paths` and grid
dots, then on success a download of the returned markup as
`kolam_<id>.svg` followed by a success alert; on application-level failure
an alert `'Export failed: ' + error`; on transport failure a fixed alert.
Returns the effects in order. -/
def exportSVG (kolam : Option PatternRecord) (outcome : SvgOutcome) :
    List Effect :=
  match kolam with
  | none => []
  | some r =>
      Effect.fetchExportSVG r.paths r.grid.dots ::
      match outcome with
      | .response true svg _ =>
          [Effect.download ("kolam_" ++ r.id ++ ".svg") svg,
           Effect.alert "SVG exported successfully!"]
      | .response false _ err =>
          [Effect.alert ("Export failed: " ++ err)]
      | .transportError =>
          [Effect.alert "Failed to export SVG"]

/-- The text template of `saveEquation` (main.js:320-340).  `now` stands for
the interpolated `new Date().toLocaleString()`; rationals are rendered by
`toString` in place of JS number formatting. -/
def equationText (r : PatternRecord) (now : String) : String :=
  "Kolam Pattern Equations\n========================\nPattern ID: "
    ++ r.id
    ++ "\nType: " ++ r.type
    ++ "\nComplexity: " ++ r.complexity
    ++ "\nSymmetry: " ++ r.symmetry
    ++ "\n\nParametric Equations:\nx(t) = " ++ r.equations.x_function
    ++ "\ny(t) = " ++ r.equations.y_function
    ++ "\n\nDomain: [" ++ toString r.equations.domain.1
    ++ ", " ++ toString r.equations.domain.2
    ++ "]\nR² = " ++ toString r.equations.r_squared
    ++ "\n\nGrid Configuration:\nType: " ++ r.grid.type
    ++ "\nDimensions: " ++ toString r.grid.dimensions.1
    ++ " × " ++ toString r.grid.dimensions.2
    ++ "\nTotal Points: " ++ toString r.grid.dots.length
    ++ "\n\nGenerated: " ++ now ++ "\n"

/-- `saveEquation` (main.js:317-354): a no-op guard when no record is live;
otherwise purely local — a download of the formatted text as
`kolam_equations_<id>.txt` followed by a success alert.  Returns the
effects in order. -/
def saveEquation (kolam : Option PatternRecord) (now : String) :
    List Effect :=
  match kolam with
  | none => []
  | some r =>
      [Effect.download ("kolam_equations_" ++ r.id ++ ".txt")
        (equationText r now),
       Effect.alert "Equation file saved successfully!"]

/-- `needle` occurs verbatim inside `haystack`. -/
def containsStr (haystack needle : String) : Prop :=
  needle.data <:+: haystack.data

/-- The spec's cursor invariant read literally: `currentPathIndex` lies in
`[0, paths.length]` and, whenever a current path exists, `currentPointIndex`
lies in the integer interval `[0, currentPath.length - 1]` — i.e. it is a
valid index of the current path (for an empty path that interval is
empty). -/
def cursorInvariantStrict (paths : List Path) (st : AnimationState) : Bool :=
  decide (st.currentPathIndex ≤ paths.length) &&
  ((paths.get? st.currentPathIndex).all fun p =>
    decide (st.currentPointIndex < p.length))

/-- The cursor invariant the code actually maintains: `currentPathIndex`
lies in `[0, paths.length]` and, whenever the current path exists and is
nonempty, `currentPointIndex` is one of its valid indices.  (An empty
current path carries `currentPointIndex = 0` for one accepted frame before
being skipped, and has no valid index at all.) -/
def cursorInvariant (paths : List Path) (st : AnimationState) : Bool :=
  decide (st.currentPathIndex ≤ paths.length) &&
  ((paths.get? st.currentPathIndex).all fun p =>
    p.isEmpty || decide (st.currentPointIndex < p.length))

/-- The operations that mutate the animation state: an animation-frame
callback, a play/pause toggle, a reset click, and a speed-slider input
(main.js:166-169). -/
inductive LoopOp where
  | frame (newId : Nat) (timestamp : ℚ)
  | toggle (newId : Nat)
  | reset
  | setSpeed (v : ℚ)
  deriving Repr, DecidableEq

/-- Apply one operation to the pair (animation state, `lastFrameTime`). -/
def applyOp (record : Option PatternRecord) (paths : List Path)
    (op : LoopOp) (s : AnimationState × ℚ) : AnimationState × ℚ :=
  match op with
  | .frame newId t =>
      let fr := animate paths newId t s.2 s.1
      (fr.state, fr.lastFrameTime)
  | .toggle newId =>
      let tr := togglePlayPause paths newId s.2 s.1
      (tr.state, tr.lastFrameTime)
  | .reset => ((resetAnimation record s.1).state, s.2)
  | .setSpeed v => ({ s.1 with speed := v }, s.2)

/-- Run a sequence of operations in order. -/
def runOps (record : Option PatternRecord) (paths : List Path)
    (ops : List LoopOp) (s : AnimationState × ℚ) : AnimationState × ℚ :=
  ops.foldl (fun s op => applyOp record paths op s) s

end KolamAI

namespace KolamAI

/-! ### Helper lemmas -/

theorem frameDelay_pos : 0 < frameDelay := by norm_num [frameDelay]

theorem throttleCheck_of_le {t l s : ℚ} (hs : s ≠ 0)
    (h : frameDelay / s ≤ t - l) : throttleCheck t l s = false := by
  simp [throttleCheck, hs, not_lt.mpr h]

theorem throttleCheck_of_lt {t l s : ℚ} (hs : s ≠ 0)
    (h : t - l < frameDelay / s) : throttleCheck t l s = true := by
  simp [throttleCheck, hs, h]

theorem throttleCheck_zero_speed (t l : ℚ) : throttleCheck t l 0 = true := by
  simp [throttleCheck]

theorem throttleCheck_false_iff {t l s : ℚ} (hs : 0 < s) :
    (throttleCheck t l s = false ↔ frameDelay / s ≤ t - l) := by
  simp [throttleCheck, ne_of_gt hs, not_lt]

/-- The synchronous `animate(0)` call made by the play toggle is always
throttled when the speed is positive and the baseline nonnegative. -/
theorem throttleCheck_at_zero {l s : ℚ} (hs : 0 < s) (hl : 0 ≤ l) :
    throttleCheck 0 l s = true := by
  refine throttleCheck_of_lt (ne_of_gt hs) ?_
  calc (0 : ℚ) - l ≤ 0 := by linarith
    _ < frameDelay / s := div_pos frameDelay_pos hs

theorem throttleCheck_100_0_1 : throttleCheck 100 0 1 = false :=
  throttleCheck_of_le (by norm_num) (by norm_num [frameDelay])

theorem throttleCheck_200_100_1 : throttleCheck 200 100 1 = false :=
  throttleCheck_of_le (by norm_num) (by norm_num [frameDelay])

theorem throttleCheck_0_0_1 : throttleCheck 0 0 1 = true :=
  throttleCheck_of_lt (by norm_num) (by norm_num [frameDelay])

theorem throttleCheck_100_0_neg1 : throttleCheck 100 0 (-1) = false :=
  throttleCheck_of_le (by norm_num) (by norm_num [frameDelay])

theorem throttleCheck_10_0_1 : throttleCheck 10 0 1 = true :=
  throttleCheck_of_lt (by norm_num) (by norm_num [frameDelay])

theorem isEmpty_or_zero_lt (q : List Point) :
    (q.isEmpty || decide (0 < q.length)) = true := by
  cases q <;> simp

theorem cursorInvariant_zero (paths : List Path) (st : AnimationState)
    (h1 : st.currentPathIndex = 0) (h2 : st.currentPointIndex = 0) :
    cursorInvariant paths st = true := by
  simp only [cursorInvariant, h1, h2]
  cases hq : paths.get? 0 <;> simp [Option.all, isEmpty_or_zero_lt]

theorem animate_preserves_cursorInvariant (paths : List Path) (newId : Nat)
    (t lft : ℚ) (st : AnimationState)
    (h : cursorInvariant paths st = true) :
    cursorInvariant paths (animate paths newId t lft st).state = true := by
  unfold animate
  split
  · exact h
  split
  · exact h
  split
  · exact h
  next p hp =>
    have h1 : st.currentPathIndex ≤ paths.length := by
      simp only [cursorInvariant, Bool.and_eq_true, decide_eq_true_eq] at h
      exact h.1
    have hlt : st.currentPathIndex < paths.length := by
      by_contra hge
      rw [List.get?_eq_none.mpr (le_of_not_lt hge)] at hp
      exact Option.noConfusion hp
    split
    next hseg =>
      simp only [cursorInvariant, hp, Option.all, Bool.and_eq_true,
        Bool.or_eq_true, decide_eq_true_eq]
      exact ⟨h1, Or.inr (by omega)⟩
    next hseg =>
      split
      next hend =>
        simp only [cursorInvariant, Bool.and_eq_true, decide_eq_true_eq]
        refine ⟨by omega, ?_⟩
        rw [List.get?_eq_none.mpr (by omega)]
        rfl
      next hend =>
        simp only [cursorInvariant, Bool.and_eq_true, decide_eq_true_eq]
        refine ⟨by omega, ?_⟩
        cases hq : paths.get? (st.currentPathIndex + 1) with
        | none => rfl
        | some q => simp [Option.all, isEmpty_or_zero_lt]

theorem togglePlayPause_preserves_cursorInvariant (paths : List Path)
    (newId : Nat) (lft : ℚ) (st : AnimationState)
    (h : cursorInvariant paths st = true) :
    cursorInvariant paths (togglePlayPause paths newId lft st).state = true := by
  unfold togglePlayPause
  dsimp only
  split
  · exact animate_preserves_cursorInvariant paths newId 0 lft
      { st with isPlaying := !st.isPlaying } h
  · exact h

theorem resetAnimation_cursorInvariant (record : Option PatternRecord)
    (paths : List Path) (st : AnimationState) :
    cursorInvariant paths (resetAnimation record st).state = true :=
  cursorInvariant_zero _ _ rfl rfl

theorem applyOp_preserves_cursorInvariant (record : Option PatternRecord)
    (paths : List Path) (op : LoopOp) (s : AnimationState × ℚ)
    (h : cursorInvariant paths s.1 = true) :
    cursorInvariant paths (applyOp record paths op s).1 = true := by
  cases op with
  | frame newId t => exact animate_preserves_cursorInvariant paths newId t s.2 s.1 h
  | toggle newId => exact togglePlayPause_preserves_cursorInvariant paths newId s.2 s.1 h
  | reset => exact resetAnimation_cursorInvariant record paths s.1
  | setSpeed v => exact h

theorem runOps_preserves_cursorInvariant (record : Option PatternRecord)
    (paths : List Path) (ops : List LoopOp) (s : AnimationState × ℚ)
    (h : cursorInvariant paths s.1 = true) :
    cursorInvariant paths (runOps record paths ops s).1 = true := by
  induction ops generalizing s with
  | nil => exact h
  | cons op ops ih =>
      exact ih _ (applyOp_preserves_cursorInvariant record paths op s h)

theorem containsStr_refl (s : String) : containsStr s s :=
  ⟨[], [], by simp⟩

theorem containsStr_append_left (a b s : String) (h : containsStr a s) :
    containsStr (a ++ b) s := by
  obtain ⟨u, v, huv⟩ := h
  refine ⟨u, v ++ b.data, ?_⟩
  rw [String.data_append, ← huv]
  simp

theorem containsStr_append_right (a b s : String) (h : containsStr b s) :
    containsStr (a ++ b) s := by
  obtain ⟨u, v, huv⟩ := h
  refine ⟨a.data ++ u, v, ?_⟩
  rw [String.data_append, ← huv]
  simp

end KolamAI

namespace KolamAI

/-! ### The claims -/

/-- **C1** — For every accepted animation frame while Playing: if the
current path has a next point (`currentPointIndex < currentPath.length - 1`)
a line segment is drawn from the current point to the next point, a
highlight disk is drawn at the endpoint, and `currentPointIndex` advances by
exactly one; otherwise `currentPathIndex` advances by one and
`currentPointIndex` resets to zero, and when this exhausts all paths the
machine transitions to Complete (`isPlaying` false, play indicator shows the
Paused glyph `▶`, no frame rescheduled).  In particular a path with fewer
than 2 points is skipped in a single accepted frame with no segment
drawn. -/
theorem animate_accepted_frame_spec (paths : List Path) (newId : Nat)
    (timestamp lastFrameTime : ℚ) (st : AnimationState) (p : Path)
    (hplay : st.isPlaying = true)
    (hacc : throttleCheck timestamp lastFrameTime st.speed = false)
    (hpath : paths.get? st.currentPathIndex = some p) :
    (st.currentPointIndex < p.length - 1 →
      (animate paths newId timestamp lastFrameTime st).draws =
          [DrawCmd.strokeLine (p.getD st.currentPointIndex (0, 0))
            (p.getD (st.currentPointIndex + 1) (0, 0)) "#fff" 3 "#FFA500",
           DrawCmd.arcFill (p.getD (st.currentPointIndex + 1) (0, 0)) 6
            "#FF6347"] ∧
      (animate paths newId timestamp lastFrameTime st).state.currentPointIndex
          = st.currentPointIndex + 1 ∧
      (animate paths newId timestamp lastFrameTime st).state.currentPathIndex
          = st.currentPathIndex ∧
      (animate paths newId timestamp lastFrameTime st).state.isPlaying = true ∧
      (animate paths newId timestamp lastFrameTime st).scheduled = true) ∧
    (¬ st.currentPointIndex < p.length - 1 →
      (animate paths newId timestamp lastFrameTime st).draws = [] ∧
      (animate paths newId timestamp lastFrameTime st).state.currentPathIndex
          = st.currentPathIndex + 1 ∧
      (animate paths newId timestamp lastFrameTime st).state.currentPointIndex
          = 0 ∧
      (paths.length ≤ st.currentPathIndex + 1 →
        (animate paths newId timestamp lastFrameTime st).state.isPlaying
            = false ∧
        (animate paths newId timestamp lastFrameTime st).playIcon = some "▶" ∧
        (animate paths newId timestamp lastFrameTime st).scheduled = false)) ∧
    (p.length < 2 →
      (animate paths newId timestamp lastFrameTime st).draws = [] ∧
      (animate paths newId timestamp lastFrameTime st).state.currentPathIndex
          = st.currentPathIndex + 1) := by
  rw [List.get?_eq_getElem?] at hpath
  refine ⟨fun hlt => ?_, fun hge => ?_, fun hshort => ?_⟩
  · simp [animate, hplay, hacc, hpath, hlt]
  · by_cases hend : st.currentPathIndex + 1 ≥ paths.length <;>
      simp [animate, hplay, hacc, hpath, hge, hend]
  · have hge : ¬ st.currentPointIndex < p.length - 1 := by omega
    by_cases hend : st.currentPathIndex + 1 ≥ paths.length <;>
      simp [animate, hplay, hacc, hpath, hge, hend]

/-- Witness for C1: one accepted frame on the two-point path `[(0,0),(10,0)]`
draws the segment and the highlight and advances the point cursor to 1. -/
theorem animate_accepted_frame_spec_witness :
    (animate [[((0 : Int), (0 : Int)), (10, 0)]] 1 100 0
        ⟨true, 0, 0, 1, none⟩).draws =
      [DrawCmd.strokeLine (0, 0) (10, 0) "#fff" 3 "#FFA500",
       DrawCmd.arcFill (10, 0) 6 "#FF6347"] ∧
    (animate [[((0 : Int), (0 : Int)), (10, 0)]] 1 100 0
        ⟨true, 0, 0, 1, none⟩).state.currentPointIndex = 1 := by
  have h := animate_accepted_frame_spec [[((0 : Int), (0 : Int)), (10, 0)]]
    1 100 0 ⟨true, 0, 0, 1, none⟩ [((0 : Int), (0 : Int)), (10, 0)] rfl
    throttleCheck_100_0_1 rfl
  have h1 := h.1 (by decide)
  exact ⟨by simpa using h1.1, h1.2.1⟩

/-- **C2** — For every frame callback while Playing, if the elapsed time
since the last accepted frame is below `frameDelay / speed` (50 / speed),
the frame is rescheduled without drawing and without mutating the cursors
or the accepted-frame baseline; for every positive speed a frame is
accepted exactly when the elapsed time reaches `50 / speed`, so that is the
minimum interval between accepted frames; and the threshold at speed 2 is
half the threshold at speed 1. -/
theorem animate_throttle_spec (paths : List Path) (newId : Nat)
    (timestamp lastFrameTime : ℚ) (st : AnimationState)
    (hplay : st.isPlaying = true) :
    (throttleCheck timestamp lastFrameTime st.speed = true →
      (animate paths newId timestamp lastFrameTime st).scheduled = true ∧
      (animate paths newId timestamp lastFrameTime st).draws = [] ∧
      (animate paths newId timestamp lastFrameTime st).state.currentPathIndex
          = st.currentPathIndex ∧
      (animate paths newId timestamp lastFrameTime st).state.currentPointIndex
          = st.currentPointIndex ∧
      (animate paths newId timestamp lastFrameTime st).state.isPlaying
          = true ∧
      (animate paths newId timestamp lastFrameTime st).lastFrameTime
          = lastFrameTime) ∧
    (0 < st.speed →
      (throttleCheck timestamp lastFrameTime st.speed = false ↔
        frameDelay / st.speed ≤ timestamp - lastFrameTime)) ∧
    frameDelay / 2 = frameDelay / 1 / 2 := by
  refine ⟨fun hth => ?_, fun hs => throttleCheck_false_iff hs, by norm_num⟩
  simp [animate, hplay, hth]

/-- Witness for C2: at speed 1, the frame at timestamp 10 with baseline 0 is
throttled — scheduled, nothing drawn, cursors and baseline untouched. -/
theorem animate_throttle_spec_witness :
    (animate [] 1 10 0 ⟨true, 0, 0, 1, none⟩).scheduled = true ∧
    (animate [] 1 10 0 ⟨true, 0, 0, 1, none⟩).draws = [] ∧
    (animate [] 1 10 0 ⟨true, 0, 0, 1, none⟩).lastFrameTime = 0 ∧
    (animate [] 1 10 0 ⟨true, 0, 0, 1, none⟩).state.currentPointIndex = 0 := by
  have h := (animate_throttle_spec [] 1 10 0 ⟨true, 0, 0, 1, none⟩ rfl).1
    throttleCheck_10_0_1
  exact ⟨h.1, h.2.1, h.2.2.2.2.2, h.2.2.2.1⟩

/-- **C3** — Explicit reset cancels the pending scheduled frame (when one
exists) before mutating state, zeroes both cursors, pauses playback with
the `▶` glyph, and redraws via the clear-background-plus-grid-dots step;
after the reset, pressing play (at positive speed and nonnegative baseline)
enters Playing with the cursors still at zero, and the first accepted frame
draws the segment from the first point of the first path — never from the
pre-reset position. -/
theorem resetAnimation_spec (record : Option PatternRecord)
    (st : AnimationState) :
    (resetAnimation record st).cancelled = st.animationId ∧
    (resetAnimation record st).state.currentPathIndex = 0 ∧
    (resetAnimation record st).state.currentPointIndex = 0 ∧
    (resetAnimation record st).state.isPlaying = false ∧
    (resetAnimation record st).playIcon = "▶" ∧
    (resetAnimation record st).draws =
      DrawCmd.fillBackground "#000" :: drawGridDots record ∧
    (∀ (a b : Point) (tl : Path) (tls : List Path) (id1 id2 : Nat)
        (lft1 t lft2 : ℚ),
      0 < st.speed → 0 ≤ lft1 →
      throttleCheck t lft2 st.speed = false →
      (togglePlayPause ((a :: b :: tl) :: tls) id1 lft1
          (resetAnimation record st).state).state.isPlaying = true ∧
      (togglePlayPause ((a :: b :: tl) :: tls) id1 lft1
          (resetAnimation record st).state).state.currentPathIndex = 0 ∧
      (togglePlayPause ((a :: b :: tl) :: tls) id1 lft1
          (resetAnimation record st).state).state.currentPointIndex = 0 ∧
      (animate ((a :: b :: tl) :: tls) id2 t lft2
          (togglePlayPause ((a :: b :: tl) :: tls) id1 lft1
            (resetAnimation record st).state).state).draws =
        [DrawCmd.strokeLine a b "#fff" 3 "#FFA500",
         DrawCmd.arcFill b 6 "#FF6347"]) := by
  refine ⟨rfl, rfl, rfl, rfl, rfl, rfl, ?_⟩
  intro a b tl tls id1 id2 lft1 t lft2 hs hl hacc
  have htoggle : (togglePlayPause ((a :: b :: tl) :: tls) id1 lft1
      (resetAnimation record st).state).state =
      { isPlaying := true, currentPathIndex := 0, currentPointIndex := 0,
        speed := st.speed, animationId := some id1 } := by
    simp [togglePlayPause, resetAnimation, initializeCanvas, animate,
      throttleCheck_at_zero hs hl]
  refine ⟨by rw [htoggle], by rw [htoggle], by rw [htoggle], ?_⟩
  rw [htoggle]
  simp [animate, hacc]

/-- Witness for C3: resetting mid-animation (cursors at path 2, point 1,
frame 5 pending) cancels handle 5 and zeroes the cursors, and the first
accepted frame after pressing play draws the first segment of the first
path. -/
theorem resetAnimation_spec_witness :
    (resetAnimation none ⟨true, 2, 1, 1, some 5⟩).cancelled = some 5 ∧
    (resetAnimation none ⟨true, 2, 1, 1, some 5⟩).state.currentPathIndex
        = 0 ∧
    (resetAnimation none ⟨true, 2, 1, 1, some 5⟩).state.currentPointIndex
        = 0 ∧
    (animate [[((0 : Int), (0 : Int)), (10, 0)]] 2 100 0
        (togglePlayPause [[((0 : Int), (0 : Int)), (10, 0)]] 1 0
          (resetAnimation none ⟨true, 2, 1, 1, some 5⟩).state).state).draws =
      [DrawCmd.strokeLine (0, 0) (10, 0) "#fff" 3 "#FFA500",
       DrawCmd.arcFill (10, 0) 6 "#FF6347"] := by
  have h := resetAnimation_spec none ⟨true, 2, 1, 1, some 5⟩
  have h7 := h.2.2.2.2.2.2 (0, 0) (10, 0) [] [] 1 2 0 100 0
    (by norm_num) (by norm_num) throttleCheck_100_0_1
  exact ⟨h.1, h.2.1, h.2.2.1, h7.2.2.2⟩

/-- **C4** (amended) — For every Pattern Record and every sequence of
animation-loop steps and reset/playback/speed control invocations starting
from the initial animation state, `currentPathIndex` stays in
`[0, paths.length]` (reaching `paths.length` signals completion) and,
whenever the path `currentPointIndex` indexes into is nonempty,
`currentPointIndex` stays in `[0, currentPath.length - 1]`.  (The original
claim, which demanded the point-cursor bound also for an empty current
path, fails: see the counterexample.) -/
theorem cursorInvariant_all_ops (record : Option PatternRecord)
    (paths : List Path) (ops : List LoopOp) :
    cursorInvariant paths
      (runOps record paths ops (initialAnimationState, 0)).1 = true :=
  runOps_preserves_cursorInvariant record paths ops _
    (cursorInvariant_zero paths initialAnimationState rfl rfl)

/-- Witness for C4 (amended): the invariant holds after a toggle and one
accepted frame on the two-path pattern with an empty second path. -/
theorem cursorInvariant_all_ops_witness :
    cursorInvariant [[((0 : Int), (0 : Int)), (10, 0)], []]
      (runOps none [[((0 : Int), (0 : Int)), (10, 0)], []]
        [LoopOp.toggle 1, LoopOp.frame 2 100]
        (initialAnimationState, 0)).1 = true :=
  cursorInvariant_all_ops none [[((0 : Int), (0 : Int)), (10, 0)], []]
    [LoopOp.toggle 1, LoopOp.frame 2 100]

/-- Counterexample to C4 as stated: with paths `[[(0,0),(10,0)], []]`, after
play is toggled and two frames are accepted (timestamps 100 and 200 at
speed 1), the cursor sits at the empty second path with
`currentPointIndex = 0` — but an empty path has no valid index, so the
literal invariant `currentPointIndex ∈ [0, currentPath.length - 1]` is
violated. -/
theorem cursorInvariantStrict_counterexample :
    (runOps none [[((0 : Int), (0 : Int)), (10, 0)], []]
        [LoopOp.toggle 1, LoopOp.frame 2 100, LoopOp.frame 3 200]
        (initialAnimationState, 0)).1.currentPathIndex = 1 ∧
    (runOps none [[((0 : Int), (0 : Int)), (10, 0)], []]
        [LoopOp.toggle 1, LoopOp.frame 2 100, LoopOp.frame 3 200]
        (initialAnimationState, 0)).1.currentPointIndex = 0 ∧
    cursorInvariantStrict [[((0 : Int), (0 : Int)), (10, 0)], []]
      (runOps none [[((0 : Int), (0 : Int)), (10, 0)], []]
        [LoopOp.toggle 1, LoopOp.frame 2 100, LoopOp.frame 3 200]
        (initialAnimationState, 0)).1 = false := by
  have hrun : (runOps none [[((0 : Int), (0 : Int)), (10, 0)], []]
      [LoopOp.toggle 1, LoopOp.frame 2 100, LoopOp.frame 3 200]
      (initialAnimationState, 0)) =
      (⟨true, 1, 0, 1, some 3⟩, 200) := by
    simp [runOps, applyOp, togglePlayPause, animate, initialAnimationState,
      throttleCheck_0_0_1, throttleCheck_100_0_1, throttleCheck_200_100_1]
  rw [hrun]
  refine ⟨rfl, rfl, by decide⟩

/-- **C5** — For every upload whose response reports application-level
failure (`success: false` with an error message), the message is surfaced
in a blocking alert, the busy indicator is hidden, exactly one request was
issued (no retry), and the Pattern Record is left unchanged; assignment of
the record happens only on a success response. -/
theorem handleFileUpload_failure_spec (kolam : Option PatternRecord)
    (data : Option PatternRecord) (err : String) :
    (handleFileUpload kolam (.response false data err)).1 = kolam ∧
    (handleFileUpload kolam (.response false data err)).2 =
      [Effect.showStatus, Effect.fetchAnalyze,
       Effect.alert ("Error analyzing image: " ++ err), Effect.hideStatus] ∧
    containsStr ("Error analyzing image: " ++ err) err ∧
    ((handleFileUpload kolam (.response false data err)).2.filter
        Effect.isFetch).length = 1 ∧
    (∀ outcome : AnalyzeOutcome,
      (handleFileUpload kolam outcome).1 ≠ kolam →
      ∃ d e, outcome = AnalyzeOutcome.response true d e) := by
  refine ⟨rfl, rfl,
    containsStr_append_right _ _ _ (containsStr_refl _), rfl, ?_⟩
  intro outcome hne
  match outcome with
  | .response true d e => exact ⟨d, e, rfl⟩
  | .response false d e => exact absurd rfl hne
  | .transportError => exact absurd rfl hne

/-- Witness for C5: a failure response with message `"boom"` leaves the
(empty) record unchanged and its alert text contains `"boom"`. -/
theorem handleFileUpload_failure_spec_witness :
    (handleFileUpload none (.response false none "boom")).1 = none ∧
    containsStr ("Error analyzing image: " ++ "boom") "boom" := by
  have h := handleFileUpload_failure_spec none none "boom"
  exact ⟨h.1, h.2.2.1⟩

/-- Counterexample to C6 as stated: with the single two-point path already
exhausted (`currentPathIndex = 1 = paths.length`, i.e. Complete) and
playback paused, a play toggle sets `isPlaying` to true — the machine does
enter the Playing state — and schedules a frame. -/
theorem togglePlayPause_at_end_counterexample :
    (⟨false, 1, 0, 1, none⟩ : AnimationState).isPlaying = false ∧
    ([[((0 : Int), (0 : Int)), (10, 0)]] : List Path).length = 1 ∧
    (togglePlayPause [[((0 : Int), (0 : Int)), (10, 0)]] 7 0
      (⟨false, 1, 0, 1, none⟩ : AnimationState)).state.isPlaying = true ∧
    (togglePlayPause [[((0 : Int), (0 : Int)), (10, 0)]] 7 0
      (⟨false, 1, 0, 1, none⟩ : AnimationState)).scheduled = true := by
  refine ⟨rfl, rfl, ?_, ?_⟩ <;>
    simp [togglePlayPause, animate, throttleCheck_0_0_1]

/-- **C6** (amended) — The play/pause toggle transitions Paused to Playing
unconditionally, also when the cursors are at the end: it flips
`isPlaying`, shows the `⏸` glyph and (for positive speed and nonnegative
baseline) immediately schedules the next frame without moving the cursors.
It transitions Playing to Paused by cancelling the pending scheduled frame.
When Playing was entered with the cursors at the end, the next accepted
frame — not the toggle itself — transitions the machine to Complete. -/
theorem togglePlayPause_spec (paths : List Path) (newId : Nat) (lft : ℚ)
    (st : AnimationState) :
    (st.isPlaying = false → 0 < st.speed → 0 ≤ lft →
      (togglePlayPause paths newId lft st).state.isPlaying = true ∧
      (togglePlayPause paths newId lft st).scheduled = true ∧
      (togglePlayPause paths newId lft st).playIcon = "⏸" ∧
      (togglePlayPause paths newId lft st).state.currentPathIndex
          = st.currentPathIndex ∧
      (togglePlayPause paths newId lft st).state.currentPointIndex
          = st.currentPointIndex) ∧
    (st.isPlaying = true →
      (togglePlayPause paths newId lft st).state.isPlaying = false ∧
      (togglePlayPause paths newId lft st).playIcon = "▶" ∧
      (togglePlayPause paths newId lft st).cancelled = st.animationId ∧
      (togglePlayPause paths newId lft st).scheduled = false) ∧
    (∀ (t l : ℚ) (frameId : Nat), paths.length ≤ st.currentPathIndex →
      st.isPlaying = true → throttleCheck t l st.speed = false →
      (animate paths frameId t l st).state.isPlaying = false ∧
      (animate paths frameId t l st).playIcon = some "▶" ∧
      (animate paths frameId t l st).scheduled = false) := by
  refine ⟨fun hp hs hl => ?_, fun hp => ?_, fun t l frameId hend hp hacc => ?_⟩
  · simp [togglePlayPause, hp, animate, throttleCheck_at_zero hs hl]
  · simp [togglePlayPause, hp]
  · have hnone : paths.get? st.currentPathIndex = none :=
      List.get?_eq_none.mpr hend
    rw [List.get?_eq_getElem?] at hnone
    simp [animate, hp, hacc, hnone]

/-- Witness for C6 (amended): toggling from Paused enters Playing with the
`⏸` glyph; toggling from Playing pauses and cancels pending frame 4. -/
theorem togglePlayPause_spec_witness :
    (togglePlayPause [] 3 0 ⟨false, 0, 0, 1, none⟩).state.isPlaying = true ∧
    (togglePlayPause [] 3 0 ⟨false, 0, 0, 1, none⟩).playIcon = "⏸" ∧
    (togglePlayPause [] 3 0 ⟨true, 0, 0, 1, some 4⟩).state.isPlaying
        = false ∧
    (togglePlayPause [] 3 0 ⟨true, 0, 0, 1, some 4⟩).cancelled = some 4 := by
  have h1 := (togglePlayPause_spec [] 3 0 ⟨false, 0, 0, 1, none⟩).1 rfl
    (by norm_num) (by norm_num)
  have h2 := (togglePlayPause_spec [] 3 0 ⟨true, 0, 0, 1, some 4⟩).2.1 rfl
  exact ⟨h1.1, h1.2.2.1, h2.1, h2.2.2.1⟩

/-- Counterexample to C7 as stated: at the non-positive speed −1 the
throttle threshold 50/(−1) = −50 is negative, so the frame at timestamp 100
is accepted and the loop advances `currentPointIndex` from 0 to 1 —
progress does not stall. -/
theorem animate_negative_speed_counterexample :
    (⟨true, 0, 0, -1, none⟩ : AnimationState).speed < 0 ∧
    (animate [[((0 : Int), (0 : Int)), (10, 0)]] 1 100 0
      (⟨true, 0, 0, -1, none⟩ : AnimationState)).state.currentPointIndex
      = 1 := by
  constructor
  · show (-1 : ℚ) < 0
    norm_num
  · simp [animate, throttleCheck_100_0_neg1]

/-- **C7** (amended) — Under zero speed the animation loop never advances
its cursors, never draws, and never moves the accepted-frame baseline
(every frame is throttled, matching the JS threshold 50/0 = +∞); a
negative speed, by contrast, makes the threshold negative and does not
stall (frames with nonnegative elapsed time pass the throttle).  Positive
speed is a documented precondition only: the loop neither clamps nor
validates speed and passes it through unchanged. -/
theorem animate_nonpositive_speed_spec (paths : List Path) (newId : Nat)
    (t lft : ℚ) (st : AnimationState) :
    (animate paths newId t lft st).state.speed = st.speed ∧
    (st.speed = 0 →
      (animate paths newId t lft st).state.currentPathIndex
          = st.currentPathIndex ∧
      (animate paths newId t lft st).state.currentPointIndex
          = st.currentPointIndex ∧
      (animate paths newId t lft st).draws = [] ∧
      (animate paths newId t lft st).lastFrameTime = lft) ∧
    (st.speed < 0 → 0 ≤ t - lft →
      throttleCheck t lft st.speed = false) := by
  refine ⟨?_, fun h0 => ?_, fun hneg hel => ?_⟩
  · unfold animate
    split
    · rfl
    split
    · rfl
    split
    · rfl
    next p hp =>
      split
      · rfl
      split <;> rfl
  · cases hp : st.isPlaying
    · simp [animate, hp]
    · simp [animate, hp, h0, throttleCheck_zero_speed]
  · exact throttleCheck_of_le (ne_of_lt hneg)
      (le_trans (le_of_lt (div_neg_of_pos_of_neg frameDelay_pos hneg)) hel)

/-- Witness for C7 (amended): a frame at timestamp 100 under speed 0 leaves
the cursors, the drawing surface and the baseline untouched. -/
theorem animate_nonpositive_speed_spec_witness :
    (animate [[((0 : Int), (0 : Int)), (10, 0)]] 1 100 0
      ⟨true, 0, 0, 0, none⟩).state.currentPointIndex = 0 ∧
    (animate [[((0 : Int), (0 : Int)), (10, 0)]] 1 100 0
      ⟨true, 0, 0, 0, none⟩).draws = [] ∧
    (animate [[((0 : Int), (0 : Int)), (10, 0)]] 1 100 0
      ⟨true, 0, 0, 0, none⟩).lastFrameTime = 0 := by
  have h := (animate_nonpositive_speed_spec [[((0 : Int), (0 : Int)), (10, 0)]]
    1 100 0 ⟨true, 0, 0, 0, none⟩).2.1 rfl
  exact ⟨h.2.1, h.2.2.1, h.2.2.2⟩

/-- **C8** — SVG export with a live record sends exactly the record's
`paths` and grid dots as the request payload; on success it downloads the
returned markup as `kolam_<id>.svg`; on application-level failure it raises
an alert containing the server's error string and downloads nothing; on
transport failure it alerts and downloads nothing; in every case exactly
one request is issued (no retry). -/
theorem exportSVG_spec (r : PatternRecord) :
    (∀ o, (exportSVG (some r) o).head? =
      some (Effect.fetchExportSVG r.paths r.grid.dots)) ∧
    (∀ svg e, exportSVG (some r) (.response true svg e) =
      [Effect.fetchExportSVG r.paths r.grid.dots,
       Effect.download ("kolam_" ++ r.id ++ ".svg") svg,
       Effect.alert "SVG exported successfully!"]) ∧
    (∀ svg err, exportSVG (some r) (.response false svg err) =
      [Effect.fetchExportSVG r.paths r.grid.dots,
       Effect.alert ("Export failed: " ++ err)]) ∧
    (∀ err : String, containsStr ("Export failed: " ++ err) err) ∧
    (∀ svg err, (exportSVG (some r) (.response false svg err)).filter
        Effect.isDownload = []) ∧
    (exportSVG (some r) .transportError).filter Effect.isDownload = [] ∧
    (∀ o, ((exportSVG (some r) o).filter Effect.isFetch).length = 1) := by
  refine ⟨fun o => ?_, fun svg e => rfl, fun svg err => rfl,
    fun err => containsStr_append_right _ _ _ (containsStr_refl _),
    fun svg err => rfl, rfl, fun o => ?_⟩
  · cases o with
    | response s svg e => cases s <;> rfl
    | transportError => rfl
  · cases o with
    | response s svg e => cases s <;> rfl
    | transportError => rfl

/-- A concrete Pattern Record used by witnesses. -/
def sampleRecord : PatternRecord :=
  { id := "abc123"
    type := "loop"
    symmetry := "4-fold"
    complexity := "medium"
    grid := { type := "square", dimensions := (3, 3),
              dots := [((0 : Int), (0 : Int)), (10, 10)] }
    equations := { x_function := "cos(t)", y_function := "sin(t)",
                   domain := (0, 6), r_squared := 9 / 10 }
    paths := [[((0 : Int), (0 : Int)), (10, 0)]] }

/-- Witness for C8 at the sample record: the failure response with error
`"bad input"` yields the fetch followed by a notification containing
`"bad input"`, and no download. -/
theorem exportSVG_spec_witness :
    exportSVG (some sampleRecord) (.response false "" "bad input") =
      [Effect.fetchExportSVG sampleRecord.paths sampleRecord.grid.dots,
       Effect.alert ("Export failed: " ++ "bad input")] ∧
    containsStr ("Export failed: " ++ "bad input") "bad input" ∧
    (exportSVG (some sampleRecord)
      (.response false "" "bad input")).filter Effect.isDownload = [] := by
  have h := exportSVG_spec sampleRecord
  exact ⟨h.2.2.1 "" "bad input", h.2.2.2.1 "bad input",
    h.2.2.2.2.1 "" "bad input"⟩

/-- **C9** — Equation export with a live record is purely local (no fetch
among its effects) and downloads `kolam_equations_<id>.txt` whose content
contains the record's `x_function`, `y_function`, both domain endpoints and
`r_squared` verbatim; with `id = "abc123"` the file is literally named
`kolam_equations_abc123.txt`. -/
theorem saveEquation_spec (r : PatternRecord) (now : String) :
    saveEquation (some r) now =
      [Effect.download ("kolam_equations_" ++ r.id ++ ".txt")
        (equationText r now),
       Effect.alert "Equation file saved successfully!"] ∧
    (saveEquation (some r) now).filter Effect.isFetch = [] ∧
    containsStr (equationText r now) r.equations.x_function ∧
    containsStr (equationText r now) r.equations.y_function ∧
    containsStr (equationText r now) (toString r.equations.domain.1) ∧
    containsStr (equationText r now) (toString r.equations.domain.2) ∧
    containsStr (equationText r now) (toString r.equations.r_squared) ∧
    (r.id = "abc123" →
      (saveEquation (some r) now).head? =
        some (Effect.download "kolam_equations_abc123.txt"
          (equationText r now))) := by
  refine ⟨rfl, rfl, ?_, ?_, ?_, ?_, ?_, fun hid => ?_⟩
  · unfold equationText
    repeat first
      | exact containsStr_append_right _ _ _ (containsStr_refl _)
      | apply containsStr_append_left
  · unfold equationText
    repeat first
      | exact containsStr_append_right _ _ _ (containsStr_refl _)
      | apply containsStr_append_left
  · unfold equationText
    repeat first
      | exact containsStr_append_right _ _ _ (containsStr_refl _)
      | apply containsStr_append_left
  · unfold equationText
    repeat first
      | exact containsStr_append_right _ _ _ (containsStr_refl _)
      | apply containsStr_append_left
  · unfold equationText
    repeat first
      | exact containsStr_append_right _ _ _ (containsStr_refl _)
      | apply containsStr_append_left
  · simp [saveEquation, hid]

/-- Witness for C9: the sample record with `id = "abc123"` downloads a file
literally named `kolam_equations_abc123.txt`, and the content contains its
`x_function` string. -/
theorem saveEquation_spec_witness :
    (saveEquation (some sampleRecord) "today").head? =
      some (Effect.download "kolam_equations_abc123.txt"
        (equationText sampleRecord "today")) ∧
    containsStr (equationText sampleRecord "today") "cos(t)" := by
  have h := saveEquation_spec sampleRecord "today"
  exact ⟨h.2.2.2.2.2.2.2 rfl, h.2.2.1⟩

/-- **C10** — With no live Pattern Record both export actions return
immediately as complete no-ops: no effect at all (no request, no download,
no notification), for every possible response and timestamp. -/
theorem export_guard_noop :
    (∀ o, exportSVG none o = []) ∧
    (∀ now, saveEquation none now = []) :=
  ⟨fun _ => rfl, fun _ => rfl⟩

/-- Witness for C10: both guards at concrete inputs. -/
theorem export_guard_noop_witness :
    exportSVG none .transportError = [] ∧ saveEquation none "today" = [] :=
  ⟨(export_guard_noop).1 .transportError, (export_guard_noop).2 "today"⟩

end KolamAI
